import Mathlib

/-!
Shallow embedding of the blog test-support utilities
(testing_tools/response_checker.py, testing_tools/fixtures.py,
testing_tools/async_client.py, your_app_utils/api_exception.py,
your_app_utils/pagination.py), together with proofs of the behavioural
claims about them.  Raising Python code is embedded as functions into
`Except PyErr`; an `Except.error` value is a raised exception.
-/

namespace Blog

/-- Python values as they occur in decoded JSON bodies and dict lookups.
Floats are not needed by any modelled code path and are omitted. -/
inductive PyVal where
  | none : PyVal
  | bool (b : Bool) : PyVal
  | int (n : Int) : PyVal
  | str (s : String) : PyVal
  | list (xs : List PyVal) : PyVal
  | dict (kvs : List (String × PyVal)) : PyVal

/-- Python truthiness of a value, as used by plain assert statements and
conditional expressions. -/
def PyVal.truthy : PyVal → Bool
  | .none => false
  | .bool b => b
  | .int n => n != 0
  | .str s => s != ""
  | .list xs => !xs.isEmpty
  | .dict kvs => !kvs.isEmpty

/-- Python identity test against the None singleton. -/
def PyVal.isNone : PyVal → Bool
  | .none => true
  | _ => false

/-- Python equality between an arbitrary value and a str: only a str with the
same characters compares equal. -/
def pyEqStr (v : PyVal) (s : String) : Bool :=
  match v with
  | .str t => t == s
  | _ => false

/-- Lookup in a Python dict represented as an association list with distinct
keys in insertion order; this is dict.get(key) with no default. -/
def dictGet {α : Type} (kvs : List (String × α)) (key : String) : Option α :=
  (kvs.find? (fun p => p.1 == key)).map (fun p => p.2)

/-- Rendering of a Python value inside an f-string (str()).  Container
rendering is abbreviated; no modelled claim depends on it. -/
def pyStr : PyVal → String
  | .none => "None"
  | .bool b => if b then "True" else "False"
  | .int n => toString n
  | .str s => s
  | .list _ => "[...]"
  | .dict _ => "\x7b...\x7d"

/-- The Python exceptions that the embedded code can raise. -/
inductive PyErr where
  | assertionError (msg : String) : PyErr
  | typeError (msg : String) : PyErr
  | attributeError (msg : String) : PyErr
  | jsonDecodeError (msg : String) : PyErr
  | validationError (msg : String) : PyErr
  deriving DecidableEq, Repr

/-- Whether an exception is an AssertionError (the failure signal used by the
assert statements in the checkers and fixtures). -/
def PyErr.isAssertionError : PyErr → Bool
  | .assertionError _ => true
  | _ => false

/-- Python truthiness of an int-typed optional argument (None and 0 are
falsy). -/
def pyTruthyOptInt : Option Int → Bool
  | Option.none => false
  | Option.some n => n != 0

/-- Python truthiness of a str-typed optional argument (None and the empty
string are falsy). -/
def pyTruthyOptStr : Option String → Bool
  | Option.none => false
  | Option.some s => s != ""

/-- PaginationDTO (your_app_utils/pagination.py): a ninja Schema record with
three optional int fields and two bool fields defaulting to False. -/
structure PaginationDTO where
  current_page : Option Int
  total_pages : Option Int
  total_items : Option Int
  has_next : Bool
  has_previous : Bool
  deriving DecidableEq, Repr

/-- Validation of one optional-int field: absent or null yields None, ints
pass through, bools coerce to 0/1, anything else is rejected.  Numeric-string
coercion performed by the validation library is not modelled. -/
def coerceOptInt : Option PyVal → Except PyErr (Option Int)
  | Option.none => .ok Option.none
  | Option.some PyVal.none => .ok Option.none
  | Option.some (PyVal.int n) => .ok (Option.some n)
  | Option.some (PyVal.bool b) => .ok (Option.some (if b then 1 else 0))
  | Option.some _ => .error (.validationError "value is not a valid integer")

/-- Validation of one bool field with its declared default: absent yields the
default, bools pass through, the ints 0 and 1 coerce, anything else is
rejected. -/
def coerceBool (default : Bool) : Option PyVal → Except PyErr Bool
  | Option.none => .ok default
  | Option.some (PyVal.bool b) => .ok b
  | Option.some (PyVal.int 0) => .ok false
  | Option.some (PyVal.int 1) => .ok true
  | Option.some _ => .error (.validationError "value could not be parsed to a boolean")

/-- PaginationDTO(**kwargs): field-wise validation of the keyword mapping;
keys other than the five declared fields are ignored. -/
def PaginationDTO.ofKwargs (kvs : List (String × PyVal)) : Except PyErr PaginationDTO := do
  let current_page ← coerceOptInt (dictGet kvs "current_page")
  let total_pages ← coerceOptInt (dictGet kvs "total_pages")
  let total_items ← coerceOptInt (dictGet kvs "total_items")
  let has_next ← coerceBool false (dictGet kvs "has_next")
  let has_previous ← coerceBool false (dictGet kvs "has_previous")
  .ok { current_page := current_page, total_pages := total_pages, total_items := total_items,
        has_next := has_next, has_previous := has_previous }

/-- ApiException DTO state (your_app_utils/api_exception.py): the two
underscore attributes read by check_exception, plus the message passed to
Exception.__init__.  The logging calls in __init__ do not affect this state. -/
structure ApiException where
  _status_code : Int
  _api_client_message : String
  exception_message : String
  deriving DecidableEq, Repr

/-- Class attribute ApiException._status_code. -/
def ApiException.default_status_code : Int := 400

/-- Class attribute ApiException._api_client_message. -/
def ApiException.default_api_client_message : String := "Error occurred. Try again."

/-- ApiException.__init__: every fallback is decided by truthiness, so an
explicit 0 or empty string is replaced by the class default.  The Exception
message falls back to the class attribute _api_client_message, which is still
the class default at that point of __init__. -/
def ApiException.make (message : Option String) (api_client_message : Option String)
    (status_code : Option Int) : ApiException :=
  { exception_message :=
      if pyTruthyOptStr message then message.getD ""
      else ApiException.default_api_client_message
    _status_code :=
      if pyTruthyOptInt status_code then status_code.getD 0
      else ApiException.default_status_code
    _api_client_message :=
      if pyTruthyOptStr api_client_message then api_client_message.getD ""
      else ApiException.default_api_client_message }

/-- Property ApiException.status_code. -/
def ApiException.status_code (e : ApiException) : Int := e._status_code

/-- Property ApiException.api_client_message. -/
def ApiException.api_client_message (e : ApiException) : String := e._api_client_message

namespace status

/-- ninja_extra.status.is_informational: 100 <= code <= 199. -/
def is_informational (code : Int) : Bool :=
  decide (100 ≤ code) && decide (code ≤ 199)

/-- ninja_extra.status.is_success: 200 <= code <= 299. -/
def is_success (code : Int) : Bool :=
  decide (200 ≤ code) && decide (code ≤ 299)

/-- ninja_extra.status.is_redirect: 300 <= code <= 399. -/
def is_redirect (code : Int) : Bool :=
  decide (300 ≤ code) && decide (code ≤ 399)

/-- ninja_extra.status.is_client_error: 400 <= code <= 499. -/
def is_client_error (code : Int) : Bool :=
  decide (400 ≤ code) && decide (code ≤ 499)

/-- ninja_extra.status.is_server_error: 500 <= code <= 599. -/
def is_server_error (code : Int) : Bool :=
  decide (500 ≤ code) && decide (code ≤ 599)

end status

/-- Verdict of the external JSON decoder on a response body: the body is
empty, or non-empty but malformed, or decodes to a value.  The decoder itself
(httpx Response.json) is an external collaborator, so its verdict is part of
the input. -/
inductive ResponseContent where
  | empty : ResponseContent
  | malformed (raw : String) : ResponseContent
  | decodable (v : PyVal) : ResponseContent

/-- The httpx response as seen by ResponseChecker: body content, status code,
and the cookie jar as key/value pairs (entry.value is the stored value). -/
structure Response where
  content : ResponseContent
  status_code : Int
  cookies : List (String × String)

/-- ResponseChecker state after __init__ has run _process_response. -/
structure ResponseChecker where
  _response : Response
  _json : PyVal
  _status : Int

/-- ResponseChecker.__init__ together with _process_response: the JSON body is
decoded once, eagerly, at construction; empty content yields the empty dict
and malformed non-empty content raises before any checker method can run. -/
def ResponseChecker.make (resposne : Response) : Except PyErr ResponseChecker :=
  match resposne.content with
  | .empty =>
    .ok { _response := resposne, _json := .dict [], _status := resposne.status_code }
  | .malformed raw => .error (.jsonDecodeError raw)
  | .decodable v =>
    .ok { _response := resposne, _json := v, _status := resposne.status_code }

/-- ResponseChecker.key_value: value = self._json.get(key, None), then assert
on the value's truthiness.  On a non-dict body, .get raises AttributeError. -/
def ResponseChecker.key_value (c : ResponseChecker) (key : String) : Except PyErr PyVal :=
  match c._json with
  | .dict kvs =>
    let value := (dictGet kvs key).getD .none
    if value.truthy then .ok value
    else .error (.assertionError ("Key " ++ key ++ " not found in response data."))
  | _ => .error (.attributeError "object has no attribute get")

/-- ResponseChecker.has_cookies: assert the key is in the response cookie jar
and return the entry's value. -/
def ResponseChecker.has_cookies (c : ResponseChecker) (key : String) : Except PyErr String :=
  match dictGet c._response.cookies key with
  | Option.some v => .ok v
  | Option.none => .error (.assertionError ("Key " ++ key ++ " is not in cookies."))

/-- Python len(): defined for sized containers and a TypeError otherwise, in
particular for len(None). -/
def pyLen : PyVal → Except PyErr Nat
  | .str s => .ok s.length
  | .list xs => .ok xs.length
  | .dict kvs => .ok kvs.length
  | _ => .error (.typeError "object has no len")

/-- ResponseChecker.paginated: len(results) is computed before the None check,
so a missing results key raises TypeError; the min_number_of_records parameter
occurs only inside the first assertion message. -/
def ResponseChecker.paginated (c : ResponseChecker) (min_number_of_records : Int) :
    Except PyErr (PyVal × PaginationDTO) :=
  match c._json with
  | .dict kvs =>
    let results := (dictGet kvs "results").getD .none
    let pagination_data := (dictGet kvs "pagination").getD .none
    match pyLen results with
    | .error e => .error e
    | .ok results_number =>
      if results_number > 0 then
        if results.isNone then .error (.assertionError "No results data")
        else if pagination_data.isNone then .error (.assertionError "No pagination data")
        else
          match pagination_data with
          | .dict pkvs =>
            match PaginationDTO.ofKwargs pkvs with
            | .ok pagination => .ok (results, pagination)
            | .error e => .error e
          | _ => .error (.typeError "argument after ** must be a mapping")
      else
        .error (.assertionError ("Results number is " ++ toString results_number ++
          ", but should be at least " ++ toString min_number_of_records))
  | _ => .error (.attributeError "object has no attribute get")

/-- ResponseChecker.check_exception: compare the response status code with the
expected exception's _status_code, then fetch the body message via key_value
and compare it with _api_client_message (a str compared with the body value,
so a non-string body value never matches). -/
def ResponseChecker.check_exception (c : ResponseChecker) (api_exception : ApiException) :
    Except PyErr Unit :=
  let exception_status_code := api_exception._status_code
  if c._response.status_code = exception_status_code then
    match c.key_value "message" with
    | .error e => .error e
    | .ok message =>
      if pyEqStr message api_exception._api_client_message then .ok ()
      else .error (.assertionError ("Message to client is: " ++ pyStr message ++
        "but should be: " ++ api_exception._api_client_message))
  else
    .error (.assertionError ("Status is: " ++ toString c._status ++
      " but should be: " ++ toString exception_status_code))

/-- ResponseChecker.validate_status: assert equality of the stored status with
the expected code, with a message naming both. -/
def ResponseChecker.validate_status (c : ResponseChecker) (code : Int) : Except PyErr Unit :=
  if c._status = code then .ok ()
  else .error (.assertionError ("Status is " ++ toString c._status ++
    " but should be " ++ toString code))

/-- ResponseChecker.is_informational. -/
def ResponseChecker.is_informational (c : ResponseChecker) : Except PyErr Unit :=
  if status.is_informational c._status then .ok ()
  else .error (.assertionError ("Status is " ++ toString c._status))

/-- ResponseChecker.is_success. -/
def ResponseChecker.is_success (c : ResponseChecker) : Except PyErr Unit :=
  if status.is_success c._status then .ok ()
  else .error (.assertionError ("Status is " ++ toString c._status))

/-- ResponseChecker.is_redirect. -/
def ResponseChecker.is_redirect (c : ResponseChecker) : Except PyErr Unit :=
  if status.is_redirect c._status then .ok ()
  else .error (.assertionError ("Status is " ++ toString c._status))

/-- ResponseChecker.is_client_error. -/
def ResponseChecker.is_client_error (c : ResponseChecker) : Except PyErr Unit :=
  if status.is_client_error c._status then .ok ()
  else .error (.assertionError ("Status is " ++ toString c._status))

/-- ResponseChecker.is_server_error. -/
def ResponseChecker.is_server_error (c : ResponseChecker) : Except PyErr Unit :=
  if status.is_server_error c._status then .ok ()
  else .error (.assertionError ("Status is " ++ toString c._status))

/-- SharedData (fixtures.py): a dict from string keys to arbitrary values. -/
abbrev SharedData : Type := List (String × PyVal)

/-- Python dict __setitem__ on SharedData: overwrite the first (and only)
entry carrying the key in place, append a new entry otherwise, preserving
insertion order. -/
def SharedData.set (d : SharedData) (key : String) (v : PyVal) : SharedData :=
  match d with
  | [] => [(key, v)]
  | p :: rest => if p.1 == key then (p.1, v) :: rest else p :: SharedData.set rest key v

/-- SharedData.get: assert the key exists and return its value; there is no
default-returning path. -/
def SharedData.get (d : SharedData) (key : String) : Except PyErr PyVal :=
  match dictGet d key with
  | Option.some v => .ok v
  | Option.none => .error (.assertionError ("Key: " ++ key ++ " is not in shared_data"))

/-- AsyncClientBoB wrapper state (async_client.py).  The id field models
CPython object identity: each constructor call tags the new wrapper with a
fresh id, so equality of values including id is reference equality.  Cookies
live on the wrapped AsyncClient, start empty, and the cookies setter replaces
them wholesale. -/
structure AsyncClientBoB where
  id : Nat
  _headers : List (String × String)
  email : Option String
  uid : Option String
  password : Option String
  organization_id : Option String
  organization_name : Option String
  cookies : List (String × String)
  deriving DecidableEq, Repr

/-- AnonymousUserFactory._create: AsyncClientBoB({}) followed by setting the
cookies to the single ANONYMOUS_USER_EXTERNAL_ID entry and uid to the name;
fresh is the identity of the newly allocated wrapper. -/
def AnonymousUserFactory._create (name : String) (fresh : Nat) : AsyncClientBoB :=
  { id := fresh
    _headers := []
    email := Option.none
    uid := Option.some name
    password := Option.none
    organization_id := Option.none
    organization_name := Option.none
    cookies := [("ANONYMOUS_USER_EXTERNAL_ID", name)] }

/-- AuthorizedUserFactory._create: builds the user record and then reaches the
unconditional assert False integration seam before any wrapper is constructed,
so as shipped it always raises AssertionError. -/
def AuthorizedUserFactory._create (name : String) (fresh : Nat) :
    Except PyErr AsyncClientBoB :=
  .error (.assertionError "")

/-- Memoizing factory state: the _users dict plus the allocator counter that
hands out fresh object identities. -/
structure UserFactory where
  _users : List (String × AsyncClientBoB)
  next_id : Nat
  deriving DecidableEq, Repr

/-- Factory state right after __init__ (self._users = an empty dict). -/
def UserFactory.init : UserFactory :=
  { _users := [], next_id := 0 }

/-- The shared get_user body (fixtures.py), parameterised by the _create
method the subclass supplies; _create may raise, in which case nothing is
inserted into _users. -/
def UserFactory.get_user (create : String → Nat → Except PyErr AsyncClientBoB)
    (f : UserFactory) (name : String) : Except PyErr (AsyncClientBoB × UserFactory) :=
  match dictGet f._users name with
  | Option.some c => .ok (c, f)
  | Option.none =>
    match create name f.next_id with
    | .ok c => .ok (c, { _users := f._users ++ [(name, c)], next_id := f.next_id + 1 })
    | .error e => .error e

/-- The _create method of AnonymousUserFactory as used by get_user (it never
raises). -/
def AnonymousUserFactory.create (name : String) (fresh : Nat) :
    Except PyErr AsyncClientBoB :=
  .ok (AnonymousUserFactory._create name fresh)

/-- AnonymousUserFactory.get_user. -/
def AnonymousUserFactory.get_user (f : UserFactory) (name : String) :
    Except PyErr (AsyncClientBoB × UserFactory) :=
  UserFactory.get_user AnonymousUserFactory.create f name

/-- AuthorizedUserFactory.get_user: the inherited get_user body dispatching to
the overridden _create. -/
def AuthorizedUserFactory.get_user (f : UserFactory) (name : String) :
    Except PyErr (AsyncClientBoB × UserFactory) :=
  UserFactory.get_user AuthorizedUserFactory._create f name

/-- Factory state after one get_user call; a raising call leaves _users
unchanged because the dict insert happens only after _create returns. -/
def UserFactory.after_call (create : String → Nat → Except PyErr AsyncClientBoB)
    (f : UserFactory) (name : String) : UserFactory :=
  match UserFactory.get_user create f name with
  | .ok (_, f1) => f1
  | .error _ => f

/-- Factory state after a sequence of get_user calls. -/
def UserFactory.after_calls (create : String → Nat → Except PyErr AsyncClientBoB)
    (f : UserFactory) (names : List String) : UserFactory :=
  names.foldl (UserFactory.after_call create) f

/-! Helper lemmas about dict lookup. -/

/-- Dict lookup on a cons cell. -/
theorem dictGet_cons {α : Type} (p : String × α) (xs : List (String × α)) (k : String) :
    dictGet (p :: xs) k = if p.1 == k then Option.some p.2 else dictGet xs k := by
  by_cases hp : p.1 == k <;> simp [dictGet, List.find?_cons, hp]

/-- Appending on the right does not disturb an existing binding. -/
theorem dictGet_append_left {α : Type} (xs ys : List (String × α)) (k : String) (c : α)
    (h : dictGet xs k = Option.some c) :
    dictGet (xs ++ ys) k = Option.some c := by
  induction xs with
  | nil => simp [dictGet] at h
  | cons p xs ih =>
    rw [dictGet_cons] at h
    rw [List.cons_append, dictGet_cons]
    by_cases hp : p.1 == k
    · simp [hp] at h ⊢; exact h
    · simp [hp] at h ⊢; exact ih h

/-- Lookup in an appended dict when the key is absent on the left. -/
theorem dictGet_append_of_left_none {α : Type} (xs ys : List (String × α)) (k : String)
    (h : dictGet xs k = Option.none) :
    dictGet (xs ++ ys) k = dictGet ys k := by
  induction xs with
  | nil => simp
  | cons p xs ih =>
    rw [dictGet_cons] at h
    rw [List.cons_append, dictGet_cons]
    by_cases hp : p.1 == k
    · simp [hp] at h
    · simp [hp] at h ⊢; exact ih h

/-- A string built around a middle piece contains that piece. -/
theorem data_infix_middle (pre mid post : String) :
    mid.data <:+: (pre ++ mid ++ post).data :=
  ⟨pre.data, post.data, by simp [String.data_append]⟩

/-! Claim theorems. -/

/-- C7: constructing a ResponseChecker decodes the body exactly once, at
construction time: empty content yields the empty dict as body, non-empty
malformed content makes construction itself raise before any method runs, and
otherwise the decoded body and the status code are fixed from the response at
construction. -/
theorem C7_construction_decodes_eagerly (r : Response) :
    (r.content = ResponseContent.empty →
      ResponseChecker.make r =
        Except.ok { _response := r, _json := .dict [], _status := r.status_code }) ∧
    (∀ raw, r.content = ResponseContent.malformed raw →
      ResponseChecker.make r = Except.error (PyErr.jsonDecodeError raw)) ∧
    (∀ v, r.content = ResponseContent.decodable v →
      ResponseChecker.make r =
        Except.ok { _response := r, _json := v, _status := r.status_code }) := by
  refine ⟨fun h => ?_, fun raw h => ?_, fun v h => ?_⟩ <;>
    simp [ResponseChecker.make, h]

/-- C7 witness: a response with empty content constructs a checker with the
empty dict body, and a malformed body raises at construction. -/
theorem C7_construction_decodes_eagerly_witness :
    ResponseChecker.make { content := ResponseContent.empty, status_code := 204, cookies := [] } =
      Except.ok { _response := { content := ResponseContent.empty, status_code := 204, cookies := [] },
                  _json := .dict [], _status := 204 } ∧
    ResponseChecker.make { content := ResponseContent.malformed "x", status_code := 200, cookies := [] } =
      Except.error (PyErr.jsonDecodeError "x") :=
  ⟨(C7_construction_decodes_eagerly
      { content := ResponseContent.empty, status_code := 204, cookies := [] }).1 rfl,
   (C7_construction_decodes_eagerly
      { content := ResponseContent.malformed "x", status_code := 200, cookies := [] }).2.1 "x" rfl⟩

/-- C2: key_value returns the value bound to the key in the decoded body
exactly when that value is truthy, and raises an AssertionError exactly when
the key is absent from the body or its value is falsy. -/
theorem C2_key_value_truthiness (c : ResponseChecker) (kvs : List (String × PyVal)) (k : String)
    (hjson : c._json = PyVal.dict kvs) :
    (∀ v : PyVal, c.key_value k = Except.ok v ↔
      dictGet kvs k = Option.some v ∧ v.truthy = true) ∧
    ((∃ e, c.key_value k = Except.error e ∧ e.isAssertionError = true) ↔
      dictGet kvs k = Option.none ∨ ∃ v, dictGet kvs k = Option.some v ∧ v.truthy = false) := by
  rcases c with ⟨resp, json, st⟩
  simp only at hjson
  subst hjson
  constructor
  · intro v
    constructor
    · intro h
      simp only [ResponseChecker.key_value] at h
      rcases hd : dictGet kvs k with _ | w
      · rw [hd] at h
        simp [PyVal.truthy] at h
      · rw [hd] at h
        by_cases ht : w.truthy
        · simp [ht] at h
          subst h
          exact ⟨rfl, ht⟩
        · simp [ht] at h
    · rintro ⟨hd, ht⟩
      simp [ResponseChecker.key_value, hd, ht]
  · constructor
    · rintro ⟨e, he, _⟩
      simp only [ResponseChecker.key_value] at he
      rcases hd : dictGet kvs k with _ | w
      · exact Or.inl rfl
      · rw [hd] at he
        by_cases ht : w.truthy
        · simp [ht] at he
        · exact Or.inr ⟨w, rfl, by simpa using ht⟩
    · intro h
      rcases h with hd | ⟨v, hd, ht⟩
      · refine ⟨PyErr.assertionError ("Key " ++ k ++ " not found in response data."), ?_, rfl⟩
        simp [ResponseChecker.key_value, hd, PyVal.truthy]
      · refine ⟨PyErr.assertionError ("Key " ++ k ++ " not found in response data."), ?_, rfl⟩
        simp [ResponseChecker.key_value, hd, ht]

/-- C2 witness: on the body with a bound to 1, key_value a returns 1. -/
theorem C2_key_value_truthiness_witness :
    ResponseChecker.key_value
      { _response := { content := ResponseContent.decodable (.dict [("a", .int 1)]),
                       status_code := 200, cookies := [] },
        _json := .dict [("a", .int 1)], _status := 200 } "a" = Except.ok (.int 1) :=
  ((C2_key_value_truthiness
      { _response := { content := ResponseContent.decodable (.dict [("a", .int 1)]),
                       status_code := 200, cookies := [] },
        _json := .dict [("a", .int 1)], _status := 200 }
      [("a", .int 1)] "a" rfl).1 (.int 1)).mpr ⟨rfl, rfl⟩

/-- C6: validate_status passes exactly on status equality and on mismatch
raises an AssertionError whose message contains both the actual and the
expected code; each status-class predicate passes exactly when the stored
status lies in the named range. -/
theorem C6_status_checks (c : ResponseChecker) (code : Int) :
    (c.validate_status code = Except.ok () ↔ c._status = code) ∧
    (c._status ≠ code →
      c.validate_status code = Except.error (PyErr.assertionError
        ("Status is " ++ toString c._status ++ " but should be " ++ toString code)) ∧
      (toString c._status).data <:+:
        ("Status is " ++ toString c._status ++ " but should be " ++ toString code).data ∧
      (toString code).data <:+:
        ("Status is " ++ toString c._status ++ " but should be " ++ toString code).data) ∧
    (c.is_informational = Except.ok () ↔ 100 ≤ c._status ∧ c._status ≤ 199) ∧
    (c.is_success = Except.ok () ↔ 200 ≤ c._status ∧ c._status ≤ 299) ∧
    (c.is_redirect = Except.ok () ↔ 300 ≤ c._status ∧ c._status ≤ 399) ∧
    (c.is_client_error = Except.ok () ↔ 400 ≤ c._status ∧ c._status ≤ 499) ∧
    (c.is_server_error = Except.ok () ↔ 500 ≤ c._status ∧ c._status ≤ 599) := by
  refine ⟨?_, ?_, ?_, ?_, ?_, ?_, ?_⟩
  · constructor
    · intro h
      by_contra hne
      simp [ResponseChecker.validate_status, hne] at h
    · intro h
      simp [ResponseChecker.validate_status, h]
  · intro hne
    refine ⟨by simp [ResponseChecker.validate_status, hne], ?_, ?_⟩
    · have := data_infix_middle "Status is " (toString c._status)
        (" but should be " ++ toString code)
      simpa [String.data_append, List.append_assoc] using this
    · have := data_infix_middle
        ("Status is " ++ toString c._status ++ " but should be ") (toString code) ""
      simpa [String.data_append, List.append_assoc] using this
  · constructor
    · intro h
      by_contra hc
      simp [ResponseChecker.is_informational, status.is_informational] at h
      omega
    · intro h
      simp [ResponseChecker.is_informational, status.is_informational, h.1, h.2]
  · constructor
    · intro h
      by_contra hc
      simp [ResponseChecker.is_success, status.is_success] at h
      omega
    · intro h
      simp [ResponseChecker.is_success, status.is_success, h.1, h.2]
  · constructor
    · intro h
      by_contra hc
      simp [ResponseChecker.is_redirect, status.is_redirect] at h
      omega
    · intro h
      simp [ResponseChecker.is_redirect, status.is_redirect, h.1, h.2]
  · constructor
    · intro h
      by_contra hc
      simp [ResponseChecker.is_client_error, status.is_client_error] at h
      omega
    · intro h
      simp [ResponseChecker.is_client_error, status.is_client_error, h.1, h.2]
  · constructor
    · intro h
      by_contra hc
      simp [ResponseChecker.is_server_error, status.is_server_error] at h
      omega
    · intro h
      simp [ResponseChecker.is_server_error, status.is_server_error, h.1, h.2]


/-- Storing a value makes the very next lookup of that key return it. -/
theorem dictGet_set_self (d : SharedData) (k : String) (v : PyVal) :
    dictGet (SharedData.set d k v) k = Option.some v := by
  induction d with
  | nil => simp [SharedData.set, dictGet_cons]
  | cons p rest ih =>
    by_cases hp : p.1 == k
    · simp [SharedData.set, hp, dictGet_cons]
    · simp [SharedData.set, hp, dictGet_cons, ih]

/-- C8: after data[k] = v, data.get(k) returns v; and get on a key that is
not present raises an AssertionError whose message names the key, never
returning any value. -/
theorem C8_shared_data (d : SharedData) (k missing : String) (v : PyVal)
    (hmiss : dictGet d missing = Option.none) :
    (SharedData.get (SharedData.set d k v) k = Except.ok v) ∧
    (SharedData.get d missing = Except.error (PyErr.assertionError
      ("Key: " ++ missing ++ " is not in shared_data"))) ∧
    missing.data <:+: ("Key: " ++ missing ++ " is not in shared_data").data ∧
    (∀ w, SharedData.get d missing ≠ Except.ok w) := by
  refine ⟨?_, ?_, ?_, ?_⟩
  · simp [SharedData.get, dictGet_set_self]
  · simp [SharedData.get, hmiss]
  · simpa [String.data_append, List.append_assoc] using
      data_infix_middle "Key: " missing " is not in shared_data"
  · intro w
    simp [SharedData.get, hmiss]

/-- C8 witness: storing 1 under x makes get x return it, and get y on that
state fails with a message naming y. -/
theorem C8_shared_data_witness :
    (SharedData.get (SharedData.set [] "x" (.int 1)) "x" = Except.ok (.int 1)) ∧
    (SharedData.get [] "y" = Except.error (PyErr.assertionError
      ("Key: " ++ "y" ++ " is not in shared_data"))) :=
  ⟨(C8_shared_data [] "x" "y" (.int 1) rfl).1,
   (C8_shared_data [] "x" "y" (.int 1) rfl).2.1⟩

/-- C10: the ApiException constructor decides its fallbacks by truthiness:
a falsy status_code (omitted, None or 0) yields the class default 400, a
falsy api_client_message (omitted, None or the empty string) yields the class
default message, and truthy arguments are kept verbatim. -/
theorem C10_api_exception_truthy_fallbacks (m a : Option String) (sc : Option Int) :
    ((ApiException.make m a Option.none).status_code = 400) ∧
    ((ApiException.make m a (Option.some 0)).status_code = 400) ∧
    (∀ n : Int, n ≠ 0 → (ApiException.make m a (Option.some n)).status_code = n) ∧
    ((ApiException.make m Option.none sc).api_client_message = "Error occurred. Try again.") ∧
    ((ApiException.make m (Option.some "") sc).api_client_message = "Error occurred. Try again.") ∧
    (∀ s : String, s ≠ "" →
      (ApiException.make m (Option.some s) sc).api_client_message = s) := by
  refine ⟨?_, ?_, fun n hn => ?_, ?_, ?_, fun s hs => ?_⟩ <;>
    simp [ApiException.make, ApiException.status_code, ApiException.api_client_message,
      pyTruthyOptInt, pyTruthyOptStr, ApiException.default_status_code,
      ApiException.default_api_client_message, *]

/-- C10 witness: an explicit status_code of 0 and an explicit empty message
fall back to the defaults, while truthy arguments are kept. -/
theorem C10_api_exception_truthy_fallbacks_witness :
    ((ApiException.make Option.none Option.none (Option.some 0)).status_code = 400) ∧
    ((ApiException.make Option.none (Option.some "") Option.none).api_client_message =
      "Error occurred. Try again.") ∧
    ((ApiException.make Option.none Option.none (Option.some 418)).status_code = 418) ∧
    ((ApiException.make Option.none (Option.some "boom") Option.none).api_client_message =
      "boom") :=
  ⟨(C10_api_exception_truthy_fallbacks Option.none Option.none Option.none).2.1,
   (C10_api_exception_truthy_fallbacks Option.none Option.none Option.none).2.2.2.2.1,
   (C10_api_exception_truthy_fallbacks Option.none Option.none Option.none).2.2.1 418
     (by decide),
   (C10_api_exception_truthy_fallbacks Option.none Option.none Option.none).2.2.2.2.2 "boom"
     (by decide)⟩

/-- A checker over a decoded dict body with no cookies, as make produces it
from a response carrying that body. -/
def checkerOfDict (kvs : List (String × PyVal)) (st : Int) : ResponseChecker :=
  { _response := { content := ResponseContent.decodable (PyVal.dict kvs),
                   status_code := st, cookies := [] }
    _json := PyVal.dict kvs
    _status := st }

/-- Sample pagination kwargs used by concrete instantiations. -/
def samplePagination : List (String × PyVal) :=
  [("current_page", PyVal.int 1), ("total_pages", PyVal.int 1),
   ("total_items", PyVal.int 2), ("has_next", PyVal.bool false),
   ("has_previous", PyVal.bool false)]

/-- Sample paginated body used by concrete instantiations. -/
def sampleBody : List (String × PyVal) :=
  [("results", PyVal.list [PyVal.int 1, PyVal.int 2]),
   ("pagination", PyVal.dict samplePagination)]

/-- The DTO that samplePagination validates to. -/
def sampleDTO : PaginationDTO :=
  { current_page := Option.some 1, total_pages := Option.some 1,
    total_items := Option.some 2, has_next := false, has_previous := false }

/-- Successful run of paginated: a non-empty results list together with a
pagination mapping that PaginationDTO accepts yields the pair of results and
the constructed DTO, for any min_number_of_records. -/
theorem paginated_ok_of_valid (c : ResponseChecker) (kvs : List (String × PyVal))
    (xs : List PyVal) (pkvs : List (String × PyVal)) (dto : PaginationDTO) (m : Int)
    (hjson : c._json = PyVal.dict kvs)
    (hres : dictGet kvs "results" = Option.some (PyVal.list xs))
    (hne : xs ≠ [])
    (hpag : dictGet kvs "pagination" = Option.some (PyVal.dict pkvs))
    (hok : PaginationDTO.ofKwargs pkvs = Except.ok dto) :
    c.paginated m = Except.ok (PyVal.list xs, dto) := by
  rcases c with ⟨resp, json, st⟩
  simp only at hjson
  subst hjson
  have hlen : 0 < xs.length := List.length_pos.mpr hne
  simp [ResponseChecker.paginated, hres, hpag, pyLen, hlen, PyVal.isNone, hok]

/-- C3: paginated fails when the results entry is the empty list (assertion),
when results is missing (len(None) raises TypeError), or when results is a
non-empty list but pagination is missing (assertion); and with a non-empty
results list and a PaginationDTO-compatible pagination mapping it returns the
results together with the constructed PaginationDTO. -/
theorem C3_paginated_behaviour (c : ResponseChecker) (kvs : List (String × PyVal)) (m : Int)
    (hjson : c._json = PyVal.dict kvs) :
    (dictGet kvs "results" = Option.some (PyVal.list []) →
      c.paginated m = Except.error (PyErr.assertionError
        ("Results number is " ++ toString (0 : Nat) ++
          ", but should be at least " ++ toString m))) ∧
    (dictGet kvs "results" = Option.none →
      c.paginated m = Except.error (PyErr.typeError "object has no len")) ∧
    (∀ xs, dictGet kvs "results" = Option.some (PyVal.list xs) → xs ≠ [] →
      dictGet kvs "pagination" = Option.none →
      c.paginated m = Except.error (PyErr.assertionError "No pagination data")) ∧
    (∀ xs pkvs dto, dictGet kvs "results" = Option.some (PyVal.list xs) → xs ≠ [] →
      dictGet kvs "pagination" = Option.some (PyVal.dict pkvs) →
      PaginationDTO.ofKwargs pkvs = Except.ok dto →
      c.paginated m = Except.ok (PyVal.list xs, dto)) := by
  obtain ⟨resp, json, st⟩ := c
  simp only at hjson
  subst hjson
  refine ⟨?_, ?_, ?_, fun xs pkvs dto hres hne hpag hok =>
    paginated_ok_of_valid _ kvs xs pkvs dto m rfl hres hne hpag hok⟩
  · intro hres
    simp [ResponseChecker.paginated, hres, pyLen]
  · intro hres
    simp [ResponseChecker.paginated, hres, pyLen]
  · intro xs hres hne hpag
    have hlen : 0 < xs.length := List.length_pos.mpr hne
    simp [ResponseChecker.paginated, hres, hpag, pyLen, hlen, PyVal.isNone]

/-- C3 witness: a body whose results list holds 1 and 2 with a compatible
pagination mapping yields that list together with the constructed DTO. -/
theorem C3_paginated_behaviour_witness :
    ResponseChecker.paginated (checkerOfDict sampleBody 200) 0 =
      Except.ok (PyVal.list [PyVal.int 1, PyVal.int 2], sampleDTO) :=
  (C3_paginated_behaviour (checkerOfDict sampleBody 200) sampleBody 0 rfl).2.2.2
    [PyVal.int 1, PyVal.int 2] samplePagination sampleDTO rfl (by simp) rfl rfl

/-- C4: min_number_of_records is never compared with the number of records:
on a body with a non-empty results list and a compatible pagination mapping,
paginated succeeds and returns the same pair for every value of the
parameter, in particular when the list is shorter than the parameter. -/
theorem C4_min_number_of_records_unused (c : ResponseChecker)
    (kvs : List (String × PyVal)) (xs : List PyVal) (pkvs : List (String × PyVal))
    (dto : PaginationDTO)
    (hjson : c._json = PyVal.dict kvs)
    (hres : dictGet kvs "results" = Option.some (PyVal.list xs))
    (hne : xs ≠ [])
    (hpag : dictGet kvs "pagination" = Option.some (PyVal.dict pkvs))
    (hok : PaginationDTO.ofKwargs pkvs = Except.ok dto) (m1 m2 : Int) :
    c.paginated m1 = Except.ok (PyVal.list xs, dto) ∧
    c.paginated m1 = c.paginated m2 ∧
    (Int.ofNat xs.length < m1 → c.paginated m1 = Except.ok (PyVal.list xs, dto)) := by
  have h1 := paginated_ok_of_valid c kvs xs pkvs dto m1 hjson hres hne hpag hok
  have h2 := paginated_ok_of_valid c kvs xs pkvs dto m2 hjson hres hne hpag hok
  exact ⟨h1, h1.trans h2.symm, fun _ => h1⟩

/-- C4 witness: with a two-record results list, demanding at least 5 records
still succeeds and returns the same pair as demanding 0. -/
theorem C4_min_number_of_records_unused_witness :
    ResponseChecker.paginated (checkerOfDict sampleBody 200) 5 =
      Except.ok (PyVal.list [PyVal.int 1, PyVal.int 2], sampleDTO) :=
  (C4_min_number_of_records_unused (checkerOfDict sampleBody 200) sampleBody
    [PyVal.int 1, PyVal.int 2] samplePagination sampleDTO
    rfl rfl (by simp) rfl rfl 5 0).2.2 (by decide)

/-- The client-facing message of a constructed ApiException is never the
empty string: either the truthy argument or the non-empty class default. -/
theorem ApiException.make_api_client_message_ne_empty (m a : Option String)
    (sc : Option Int) : (ApiException.make m a sc)._api_client_message ≠ "" := by
  rcases a with _ | s
  · simp [ApiException.make, pyTruthyOptStr, ApiException.default_api_client_message]
  · by_cases h : s = "" <;>
      simp [ApiException.make, pyTruthyOptStr, h, ApiException.default_api_client_message]

/-- key_value on a dict body succeeds exactly on a truthy bound value. -/
theorem key_value_ok_iff (resp : Response) (kvs : List (String × PyVal)) (st : Int)
    (k : String) (v : PyVal) :
    ResponseChecker.key_value { _response := resp, _json := .dict kvs, _status := st } k =
        Except.ok v ↔
      dictGet kvs k = Option.some v ∧ v.truthy = true := by
  constructor
  · intro h
    simp only [ResponseChecker.key_value] at h
    rcases hd : dictGet kvs k with _ | w
    · rw [hd] at h
      simp [PyVal.truthy] at h
    · rw [hd] at h
      by_cases ht : w.truthy
      · simp [ht] at h
        subst h
        exact ⟨rfl, ht⟩
      · simp [ht] at h
  · rintro ⟨hd, ht⟩
    simp [ResponseChecker.key_value, hd, ht]

/-- key_value on a dict body can only fail with an AssertionError. -/
theorem key_value_error_assertion (resp : Response) (kvs : List (String × PyVal))
    (st : Int) (k : String) (e : PyErr)
    (h : ResponseChecker.key_value { _response := resp, _json := .dict kvs, _status := st } k =
      Except.error e) :
    e.isAssertionError = true := by
  simp only [ResponseChecker.key_value] at h
  rcases hd : dictGet kvs k with _ | w
  · rw [hd] at h
    simp [PyVal.truthy] at h
    rw [← h]
    rfl
  · rw [hd] at h
    by_cases ht : w.truthy
    · simp [ht] at h
    · simp [ht] at h
      rw [← h]
      rfl

/-- C5: check_exception on a constructed expected exception passes exactly
when the response status code equals the exception status code and the body
binds message to exactly the client-facing message string; any failure is an
AssertionError. -/
theorem C5_check_exception (c : ResponseChecker) (kvs : List (String × PyVal))
    (m a : Option String) (sc : Option Int)
    (hjson : c._json = PyVal.dict kvs) :
    (c.check_exception (ApiException.make m a sc) = Except.ok () ↔
      (c._response.status_code = (ApiException.make m a sc).status_code ∧
       dictGet kvs "message" =
         Option.some (PyVal.str (ApiException.make m a sc).api_client_message))) ∧
    (c.check_exception (ApiException.make m a sc) ≠ Except.ok () →
      ∃ e, c.check_exception (ApiException.make m a sc) = Except.error e ∧
        e.isAssertionError = true) := by
  obtain ⟨resp, json, st⟩ := c
  simp only at hjson
  subst hjson
  constructor
  · constructor
    · intro h
      by_cases hst : resp.status_code = (ApiException.make m a sc)._status_code
      · rcases hkv : ResponseChecker.key_value
            { _response := resp, _json := .dict kvs, _status := st } "message" with e | v
        · simp [ResponseChecker.check_exception, hst, hkv] at h
        · by_cases heq : pyEqStr v (ApiException.make m a sc)._api_client_message
          · have hv : v = PyVal.str (ApiException.make m a sc)._api_client_message := by
              rcases v with _ | _ | _ | t | _ | _ <;> simp [pyEqStr] at heq ⊢
              exact heq
            have hkvok := (key_value_ok_iff resp kvs st "message" v).mp hkv
            subst hv
            exact ⟨hst, hkvok.1⟩
          · simp [ResponseChecker.check_exception, hst, hkv, heq] at h
      · simp [ResponseChecker.check_exception, hst] at h
    · rintro ⟨hst, hd⟩
      have hst' : resp.status_code = (ApiException.make m a sc)._status_code := hst
      have hd' : dictGet kvs "message" =
          Option.some (PyVal.str (ApiException.make m a sc)._api_client_message) := hd
      have htr : (PyVal.str (ApiException.make m a sc)._api_client_message).truthy = true := by
        simp [PyVal.truthy, ApiException.make_api_client_message_ne_empty m a sc]
      have hkv := (key_value_ok_iff resp kvs st "message"
        (PyVal.str (ApiException.make m a sc)._api_client_message)).mpr ⟨hd', htr⟩
      simp [ResponseChecker.check_exception, hst', hkv, pyEqStr]
  · intro hne
    by_cases hst : resp.status_code = (ApiException.make m a sc)._status_code
    · rcases hkv : ResponseChecker.key_value
          { _response := resp, _json := .dict kvs, _status := st } "message" with e | v
      · refine ⟨e, ?_, key_value_error_assertion resp kvs st "message" e hkv⟩
        simp [ResponseChecker.check_exception, hst, hkv]
      · by_cases heq : pyEqStr v (ApiException.make m a sc)._api_client_message
        · exfalso
          apply hne
          simp [ResponseChecker.check_exception, hst, hkv, heq]
        · refine ⟨PyErr.assertionError ("Message to client is: " ++ pyStr v ++
            "but should be: " ++ (ApiException.make m a sc)._api_client_message), ?_, rfl⟩
          simp [ResponseChecker.check_exception, hst, hkv, heq]
    · refine ⟨PyErr.assertionError ("Status is: " ++ toString st ++
        " but should be: " ++ toString (ApiException.make m a sc)._status_code), ?_, rfl⟩
      simp [ResponseChecker.check_exception, hst]

/-- C5 witness: a response with status 400 and a message body equal to the
default client message passes check_exception against a default-constructed
ApiException. -/
theorem C5_check_exception_witness :
    ResponseChecker.check_exception
      (checkerOfDict [("message", PyVal.str "Error occurred. Try again.")] 400)
      (ApiException.make Option.none Option.none Option.none) = Except.ok () :=
  ((C5_check_exception
      (checkerOfDict [("message", PyVal.str "Error occurred. Try again.")] 400)
      [("message", PyVal.str "Error occurred. Try again.")]
      Option.none Option.none Option.none rfl).1).mpr ⟨rfl, rfl⟩

/-- A cached name is served from the dict without touching _create or the
factory state. -/
theorem get_user_hit (create : String → Nat → Except PyErr AsyncClientBoB)
    (f : UserFactory) (name : String) (c : AsyncClientBoB)
    (h : dictGet f._users name = Option.some c) :
    UserFactory.get_user create f name = Except.ok (c, f) := by
  simp [UserFactory.get_user, h]

/-- Every wrapper returned by get_user is cached under its name in the
resulting factory state. -/
theorem get_user_inserts (create : String → Nat → Except PyErr AsyncClientBoB)
    (f : UserFactory) (name : String) (c : AsyncClientBoB) (f1 : UserFactory)
    (h : UserFactory.get_user create f name = Except.ok (c, f1)) :
    dictGet f1._users name = Option.some c := by
  rcases hd : dictGet f._users name with _ | c0
  · rcases hc : create name f.next_id with e | c1
    · simp [UserFactory.get_user, hd, hc] at h
    · simp [UserFactory.get_user, hd, hc] at h
      obtain ⟨hc1, hf1⟩ := h
      subst hc1
      subst hf1
      simp [dictGet_append_of_left_none _ _ _ hd, dictGet_cons]
  · simp [UserFactory.get_user, hd] at h
    obtain ⟨hc0, hf⟩ := h
    subst hc0
    subst hf
    exact hd

/-- One further get_user call, with any name, never evicts a cache entry. -/
theorem after_call_preserves (create : String → Nat → Except PyErr AsyncClientBoB)
    (f : UserFactory) (name k : String) (c : AsyncClientBoB)
    (h : dictGet f._users k = Option.some c) :
    dictGet (UserFactory.after_call create f name)._users k = Option.some c := by
  unfold UserFactory.after_call
  rcases hd : dictGet f._users name with _ | c0
  · rcases hc : create name f.next_id with e | c1
    · simp [UserFactory.get_user, hd, hc, h]
    · simp [UserFactory.get_user, hd, hc]
      exact dictGet_append_left _ _ _ _ h
  · simp [UserFactory.get_user, hd, h]

/-- No sequence of later get_user calls evicts a cache entry. -/
theorem after_calls_preserves (create : String → Nat → Except PyErr AsyncClientBoB)
    (names : List String) (f : UserFactory) (k : String) (c : AsyncClientBoB)
    (h : dictGet f._users k = Option.some c) :
    dictGet (UserFactory.after_calls create f names)._users k = Option.some c := by
  induction names generalizing f with
  | nil => exact h
  | cons n ns ih => exact ih _ (after_call_preserves create f n k c h)

/-- C1 counterexample: on a fresh AuthorizedUserFactory instance, get_user
raises AssertionError — the shipped _create hits its unconditional assert
False on every cache miss — instead of returning a wrapper, so the claim as
stated fails for AuthorizedUserFactory instances. -/
theorem C1_counterexample_authorized_raises :
    AuthorizedUserFactory.get_user UserFactory.init "one" =
      Except.error (PyErr.assertionError "") := rfl

/-- C1 (amended): whenever get_user does return a wrapper for a name — on
either factory class — calling get_user with that name again on the resulting
factory state returns the identical cached wrapper (reference equality of the
modelled object identity) without changing the state, and the cache entry
survives any later sequence of get_user calls with any names. -/
theorem C1_memoization_no_eviction (f : UserFactory) (name : String)
    (c : AsyncClientBoB) (f1 : UserFactory) (names : List String) :
    (AnonymousUserFactory.get_user f name = Except.ok (c, f1) →
      AnonymousUserFactory.get_user f1 name = Except.ok (c, f1) ∧
      dictGet (UserFactory.after_calls AnonymousUserFactory.create f1 names)._users name =
        Option.some c) ∧
    (AuthorizedUserFactory.get_user f name = Except.ok (c, f1) →
      AuthorizedUserFactory.get_user f1 name = Except.ok (c, f1) ∧
      dictGet (UserFactory.after_calls AuthorizedUserFactory._create f1 names)._users name =
        Option.some c) := by
  constructor
  · intro h
    have hin := get_user_inserts AnonymousUserFactory.create f name c f1 h
    exact ⟨get_user_hit AnonymousUserFactory.create f1 name c hin,
      after_calls_preserves AnonymousUserFactory.create names f1 name c hin⟩
  · intro h
    have hin := get_user_inserts AuthorizedUserFactory._create f name c f1 h
    exact ⟨get_user_hit AuthorizedUserFactory._create f1 name c hin,
      after_calls_preserves AuthorizedUserFactory._create names f1 name c hin⟩

/-- C1 witness: after the anonymous factory has created the user one, asking
for one again hands back the identical wrapper and leaves the state alone,
and a later call for two does not evict the entry. -/
theorem C1_memoization_no_eviction_witness :
    (AnonymousUserFactory.get_user
        { _users := [("one", AnonymousUserFactory._create "one" 0)], next_id := 1 } "one" =
      Except.ok (AnonymousUserFactory._create "one" 0,
        { _users := [("one", AnonymousUserFactory._create "one" 0)], next_id := 1 })) ∧
    dictGet (UserFactory.after_calls AnonymousUserFactory.create
        { _users := [("one", AnonymousUserFactory._create "one" 0)], next_id := 1 }
        ["two"])._users "one" =
      Option.some (AnonymousUserFactory._create "one" 0) :=
  (C1_memoization_no_eviction UserFactory.init "one"
    (AnonymousUserFactory._create "one" 0)
    { _users := [("one", AnonymousUserFactory._create "one" 0)], next_id := 1 }
    ["two"]).1 rfl

/-- C9: on a cache miss, AnonymousUserFactory.get_user creates, caches and
returns a wrapper with empty headers, exactly the single
ANONYMOUS_USER_EXTERNAL_ID cookie bound to the name, and uid equal to the
name. -/
theorem C9_anonymous_create_shape (f : UserFactory) (name : String)
    (hmiss : dictGet f._users name = Option.none) :
    AnonymousUserFactory.get_user f name =
      Except.ok (AnonymousUserFactory._create name f.next_id,
        { _users := f._users ++ [(name, AnonymousUserFactory._create name f.next_id)],
          next_id := f.next_id + 1 }) ∧
    (AnonymousUserFactory._create name f.next_id)._headers = [] ∧
    (AnonymousUserFactory._create name f.next_id).cookies =
      [("ANONYMOUS_USER_EXTERNAL_ID", name)] ∧
    (AnonymousUserFactory._create name f.next_id).uid = Option.some name := by
  refine ⟨?_, rfl, rfl, rfl⟩
  simp [AnonymousUserFactory.get_user, UserFactory.get_user, hmiss,
    AnonymousUserFactory.create]

/-- C9 witness: a fresh factory asked for the user one returns the wrapper
with empty headers, the single anonymous-id cookie, and uid one. -/
theorem C9_anonymous_create_shape_witness :
    AnonymousUserFactory.get_user UserFactory.init "one" =
      Except.ok (AnonymousUserFactory._create "one" 0,
        { _users := [("one", AnonymousUserFactory._create "one" 0)], next_id := 1 }) ∧
    (AnonymousUserFactory._create "one" 0).cookies =
      [("ANONYMOUS_USER_EXTERNAL_ID", "one")] :=
  ⟨(C9_anonymous_create_shape UserFactory.init "one" rfl).1,
   (C9_anonymous_create_shape UserFactory.init "one" rfl).2.2.1⟩

/-- C6 witness: a checker with status 200 passes validate_status 200 and
is_success; validate_status 404 fails with a message containing both codes. -/
theorem C6_status_checks_witness :
    (ResponseChecker.validate_status (checkerOfDict [] 200) 200 = Except.ok ()) ∧
    (ResponseChecker.validate_status (checkerOfDict [] 200) 404 =
      Except.error (PyErr.assertionError
        ("Status is " ++ toString (200 : Int) ++ " but should be " ++
          toString (404 : Int))) ∧
      (toString (200 : Int)).data <:+:
        ("Status is " ++ toString (200 : Int) ++ " but should be " ++
          toString (404 : Int)).data ∧
      (toString (404 : Int)).data <:+:
        ("Status is " ++ toString (200 : Int) ++ " but should be " ++
          toString (404 : Int)).data) ∧
    (ResponseChecker.is_success (checkerOfDict [] 200) = Except.ok ()) :=
  ⟨(C6_status_checks (checkerOfDict [] 200) 200).1.mpr rfl,
   (C6_status_checks (checkerOfDict [] 200) 404).2.1 (by decide),
   (C6_status_checks (checkerOfDict [] 200) 404).2.2.2.1.mpr (by constructor <;> decide)⟩

end Blog
